import Mathlib

/-!
Shallow embedding of the `pagi-external-api-lib` crate: configuration loading
(`src/config.rs`), the OpenRouter chat-completions client (`src/llm_provider.rs`)
and the two stub integration clients (`src/api_clients.rs`), together with
theorems checking the specification's claims about them.

Modelling conventions:
* The process environment after the optional `.env` merge (`dotenvy::dotenv()`)
  is an `Env` value holding the six variables the crate reads; `None` means the
  variable is unset.
* `PAGIConfig::load`'s `expect` panic is modelled as `Except.error` carrying the
  panic diagnostic; success is `Except.ok`.
* Rust methods take `&self` (no interior mutability), so each operation is a
  function of the receiver; each returns an `OpResult` recording its result,
  the list of outgoing network requests it issues (its only possible external
  effect), and the receiver's post-state.
* `generate_response` performs one HTTP round trip; the part of the world the
  code does not control (transport failure, response status, whether the body
  deserializes as `OpenRouterChatCompletionsResponse`) is an explicit
  `HttpOutcome` argument. `reqwest::Response::error_for_status` errors exactly
  when the status is in the client/server error range 400..=599, which the
  embedding reproduces.
-/

/-- The six environment variables read by `PAGIConfig::load`, after the
optional `.env` file merge. `None` models an unset variable. -/
structure Env where
  OPENROUTER_API_KEY : Option String
  OPENROUTER_DEFAULT_MODEL : Option String
  JIRA_API_TOKEN : Option String
  JIRA_BASE_URL : Option String
  CROWDSTRIKE_API_TOKEN : Option String
  CROWDSTRIKE_BASE_URL : Option String
deriving DecidableEq, Repr

/-- `PAGIConfig` from `src/config.rs`: secure configuration for all external
providers. -/
structure PAGIConfig where
  openrouter_api_key : String
  default_model : String
  jira_api_token : String
  jira_base_url : String
  crowdstrike_api_token : String
  crowdstrike_base_url : String
deriving DecidableEq, Repr

/-- `PAGIConfig::load` from `src/config.rs`. The `expect` on the mandatory
`OPENROUTER_API_KEY` panics with the diagnostic below, modelled as
`Except.error`; every other variable falls back to its fixed default
(`unwrap_or_default` for the tokens, `unwrap_or_else` for the model and
the base URLs). -/
def PAGIConfig.load (env : Env) : Except String PAGIConfig :=
  match env.OPENROUTER_API_KEY with
  | none => Except.error "Missing required env var: OPENROUTER_API_KEY"
  | some key =>
      Except.ok
        { openrouter_api_key := key
          default_model := env.OPENROUTER_DEFAULT_MODEL.getD "openai/gpt-4o-mini"
          jira_api_token := env.JIRA_API_TOKEN.getD ""
          jira_base_url := env.JIRA_BASE_URL.getD "https://jira.example.com"
          crowdstrike_api_token := env.CROWDSTRIKE_API_TOKEN.getD ""
          crowdstrike_base_url := env.CROWDSTRIKE_BASE_URL.getD "https://api.crowdstrike.com" }

/-- One `{role, content}` entry of the chat request body
(`OpenRouterMessage` in `src/llm_provider.rs`). -/
structure OpenRouterMessage where
  role : String
  content : String
deriving DecidableEq, Repr

/-- The serialized chat request body
(`OpenRouterChatCompletionsRequest` in `src/llm_provider.rs`). -/
structure OpenRouterChatCompletionsRequest where
  model : String
  messages : List OpenRouterMessage
deriving DecidableEq, Repr

/-- `OpenRouterChoiceMessage` from `src/llm_provider.rs`. -/
structure OpenRouterChoiceMessage where
  content : String
deriving DecidableEq, Repr

/-- `OpenRouterChoice` from `src/llm_provider.rs`. -/
structure OpenRouterChoice where
  message : OpenRouterChoiceMessage
deriving DecidableEq, Repr

/-- `OpenRouterChatCompletionsResponse` from `src/llm_provider.rs`: optional
id (dead code downstream) and the list of candidate completions. -/
structure OpenRouterChatCompletionsResponse where
  id : Option String
  choices : List OpenRouterChoice
deriving DecidableEq, Repr

/-- An outgoing network request. The crate's only kind of network effect is
the chat client's POST; the stub clients never construct one. -/
inductive NetworkEffect where
  | post (url : String) (bearer : String) (headers : List (String × String))
      (body : OpenRouterChatCompletionsRequest)
deriving DecidableEq, Repr

/-- The single error type of the chat call (`reqwest::Error` in the source):
one category covering transport failure, a client/server error status raised
by `error_for_status`, and body-deserialization failure. -/
inductive ReqwestError where
  | transport
  | status (code : Nat)
  | decode
deriving DecidableEq, Repr

/-- The environment's answer to the chat client's single HTTP round trip:
either `send()` fails in transport, or a response arrives with some status
code and a body that does or does not deserialize as
`OpenRouterChatCompletionsResponse`. -/
inductive HttpOutcome where
  | transportFailure
  | response (status : Nat) (parsed : Option OpenRouterChatCompletionsResponse)
deriving DecidableEq, Repr

/-- Output of one client operation: its result, the outgoing network requests
it issued, and the receiver's post-state (all methods take `&self`, so the
post-state is the unchanged receiver). -/
structure OpResult (ε α σ : Type) where
  result : Except ε α
  network : List NetworkEffect
  post : σ

/-- `LLMProvider` from `src/llm_provider.rs`. The `reqwest::Client` handle
holds no observable state of its own and is omitted. -/
structure LLMProvider where
  config : PAGIConfig
deriving DecidableEq, Repr

/-- The fixed chat-completions endpoint of `generate_response`. -/
def chatCompletionsUrl : String := "https://openrouter.ai/api/v1/chat/completions"

/-- The request body built by `LLMProvider::generate_response`: effective
model (`model.unwrap_or(default_model)`) and the two ordered messages. -/
def LLMProvider.request_body (self : LLMProvider) (prompt system_prompt : String)
    (model : Option String) : OpenRouterChatCompletionsRequest :=
  { model := model.getD self.config.default_model
    messages :=
      [ { role := "system", content := system_prompt },
        { role := "user", content := prompt } ] }

/-- `LLMProvider::generate_response` from `src/llm_provider.rs`: builds the
body, POSTs it with bearer auth and the two static headers, raises any
status in 400..=599 via `error_for_status`, deserializes the body, and
returns the first choice's message content (empty string when `choices` is
empty, via `unwrap_or_default`). -/
def LLMProvider.generate_response (self : LLMProvider) (prompt system_prompt : String)
    (model : Option String) (outcome : HttpOutcome) :
    OpResult ReqwestError String LLMProvider :=
  let body := self.request_body prompt system_prompt model
  let sent : List NetworkEffect :=
    [NetworkEffect.post chatCompletionsUrl self.config.openrouter_api_key
      [("HTTP-Referer", "https://localhost"), ("X-Title", "pagi-external-api-lib")] body]
  match outcome with
  | HttpOutcome.transportFailure =>
      { result := Except.error ReqwestError.transport, network := sent, post := self }
  | HttpOutcome.response status parsed =>
      if 400 ≤ status ∧ status ≤ 599 then
        { result := Except.error (ReqwestError.status status), network := sent, post := self }
      else
        match parsed with
        | none =>
            { result := Except.error ReqwestError.decode, network := sent, post := self }
        | some resp =>
            { result :=
                Except.ok ((resp.choices.head?.map fun c => c.message.content).getD "")
              network := sent
              post := self }

/-- `JiraClient` from `src/api_clients.rs`. -/
structure JiraClient where
  config : PAGIConfig
deriving DecidableEq, Repr

/-- `JiraClient::new`. -/
def JiraClient.new (config : PAGIConfig) : JiraClient := { config := config }

/-- `JiraClient::create_issue`: fails when the token is empty, otherwise the
simulated call is a no-op (no network request) and returns success. -/
def JiraClient.create_issue (self : JiraClient) (summary : String) :
    OpResult String Unit JiraClient :=
  if self.config.jira_api_token.isEmpty then
    { result := Except.error "JIRA_API_TOKEN is not set", network := [], post := self }
  else
    let _ := (self.config.jira_base_url, self.config.jira_api_token, summary)
    { result := Except.ok (), network := [], post := self }

/-- `CrowdstrikeClient` from `src/api_clients.rs`. -/
structure CrowdstrikeClient where
  config : PAGIConfig
deriving DecidableEq, Repr

/-- `CrowdstrikeClient::new`. -/
def CrowdstrikeClient.new (config : PAGIConfig) : CrowdstrikeClient := { config := config }

/-- `CrowdstrikeClient::isolate_host`: fails when the token is empty,
otherwise the simulated call is a no-op (no network request) and returns
success. -/
def CrowdstrikeClient.isolate_host (self : CrowdstrikeClient) (hostname : String) :
    OpResult String Unit CrowdstrikeClient :=
  if self.config.crowdstrike_api_token.isEmpty then
    { result := Except.error "CROWDSTRIKE_API_TOKEN is not set", network := [], post := self }
  else
    let _ := (self.config.crowdstrike_base_url, self.config.crowdstrike_api_token, hostname)
    { result := Except.ok (), network := [], post := self }

/-- The messages field of the (unique) request a chat call sends. -/
def NetworkEffect.bodyMessages : NetworkEffect → List OpenRouterMessage
  | NetworkEffect.post _ _ _ body => body.messages

/-- The model field of the (unique) request a chat call sends. -/
def NetworkEffect.bodyModel : NetworkEffect → String
  | NetworkEffect.post _ _ _ body => body.model

/-- Environment with only the mandatory key set. -/
def envOnlyKey : Env :=
  { OPENROUTER_API_KEY := some "sk-test"
    OPENROUTER_DEFAULT_MODEL := none
    JIRA_API_TOKEN := none
    JIRA_BASE_URL := none
    CROWDSTRIKE_API_TOKEN := none
    CROWDSTRIKE_BASE_URL := none }

/-- Environment with the mandatory key unset but every optional variable set. -/
def envMissingKey : Env :=
  { OPENROUTER_API_KEY := none
    OPENROUTER_DEFAULT_MODEL := some "openai/gpt-4o"
    JIRA_API_TOKEN := some "jt"
    JIRA_BASE_URL := some "https://jira.internal"
    CROWDSTRIKE_API_TOKEN := some "ct"
    CROWDSTRIKE_BASE_URL := some "https://cs.internal" }

/-- Concrete configuration equal to a load with only the mandatory key set. -/
def cfg0 : PAGIConfig :=
  { openrouter_api_key := "sk-test"
    default_model := "openai/gpt-4o-mini"
    jira_api_token := ""
    jira_base_url := "https://jira.example.com"
    crowdstrike_api_token := ""
    crowdstrike_base_url := "https://api.crowdstrike.com" }

/-- Concrete chat provider. -/
def provider0 : LLMProvider := { config := cfg0 }

/-- A parsed response with two candidates, the first saying "hello". -/
def respHello : OpenRouterChatCompletionsResponse :=
  { id := some "gen-1"
    choices := [ { message := { content := "hello" } },
                 { message := { content := "ignored" } } ] }

/-- A parsed response with an empty candidate list. -/
def respEmpty : OpenRouterChatCompletionsResponse :=
  { id := none, choices := [] }

/-- Every chat call, whatever the outcome, issues exactly one POST to the
fixed endpoint with the bearer key, the two static headers and the built
body. -/
theorem generate_response_network_eq (self : LLMProvider) (prompt system_prompt : String)
    (model : Option String) (outcome : HttpOutcome) :
    (self.generate_response prompt system_prompt model outcome).network =
      [NetworkEffect.post chatCompletionsUrl self.config.openrouter_api_key
        [("HTTP-Referer", "https://localhost"), ("X-Title", "pagi-external-api-lib")]
        (self.request_body prompt system_prompt model)] := by
  cases outcome with
  | transportFailure => rfl
  | response status parsed =>
      simp only [LLMProvider.generate_response]
      split
      · rfl
      · cases parsed <;> rfl

/-- Every chat call returns the receiver unchanged as its post-state. -/
theorem generate_response_post_eq (self : LLMProvider) (prompt system_prompt : String)
    (model : Option String) (outcome : HttpOutcome) :
    (self.generate_response prompt system_prompt model outcome).post = self := by
  cases outcome with
  | transportFailure => rfl
  | response status parsed =>
      simp only [LLMProvider.generate_response]
      split
      · rfl
      · cases parsed <;> rfl

/-- Closed form of `create_issue`: a credential-gated result, no network
requests, unchanged receiver. -/
theorem create_issue_eq (jc : JiraClient) (s : String) :
    jc.create_issue s =
      { result :=
          if jc.config.jira_api_token.isEmpty then
            Except.error "JIRA_API_TOKEN is not set"
          else Except.ok ()
        network := []
        post := jc } := by
  simp only [JiraClient.create_issue]
  split <;> simp [*]

/-- Closed form of `isolate_host`: a credential-gated result, no network
requests, unchanged receiver. -/
theorem isolate_host_eq (cc : CrowdstrikeClient) (h : String) :
    cc.isolate_host h =
      { result :=
          if cc.config.crowdstrike_api_token.isEmpty then
            Except.error "CROWDSTRIKE_API_TOKEN is not set"
          else Except.ok ()
        network := []
        post := cc } := by
  simp only [CrowdstrikeClient.isolate_host]
  split <;> simp [*]

/-- C1: configuration loading fails with a diagnostic naming
`OPENROUTER_API_KEY` for every environment in which that variable is absent,
and succeeds for every environment in which it is present, regardless of
the other five variables. -/
theorem c1_config_load_fail_fast (env : Env) :
    (env.OPENROUTER_API_KEY = none →
      PAGIConfig.load env = Except.error "Missing required env var: OPENROUTER_API_KEY") ∧
    (∀ k, env.OPENROUTER_API_KEY = some k →
      ∃ cfg, PAGIConfig.load env = Except.ok cfg) := by
  constructor
  · intro h
    simp [PAGIConfig.load, h]
  · intro k h
    unfold PAGIConfig.load
    rw [h]
    exact ⟨_, rfl⟩

/-- C1 witness: loading aborts on a concrete environment missing only the
mandatory key (all optional variables set), and succeeds on a concrete
environment holding only the mandatory key. -/
theorem c1_config_load_fail_fast_witness :
    PAGIConfig.load envMissingKey =
      Except.error "Missing required env var: OPENROUTER_API_KEY" ∧
    ∃ cfg, PAGIConfig.load envOnlyKey = Except.ok cfg :=
  ⟨(c1_config_load_fail_fast envMissingKey).1 rfl,
   (c1_config_load_fail_fast envOnlyKey).2 "sk-test" rfl⟩

/-- C2: every chat call sends exactly one request, whose message list is
exactly the system-role entry with the supplied system prompt followed by
the user-role entry with the supplied prompt. -/
theorem c2_request_messages (self : LLMProvider) (prompt system_prompt : String)
    (model : Option String) (outcome : HttpOutcome) :
    (self.generate_response prompt system_prompt model outcome).network.map
        NetworkEffect.bodyMessages =
      [[{ role := "system", content := system_prompt },
        { role := "user", content := prompt }]] := by
  rw [generate_response_network_eq]
  rfl

/-- C3: for every response that parses (and whose status escapes the
400–599 error raise), the result is `Ok` of the first choice's message
content — the empty string when the choices list is empty — and every
later candidate is ignored. -/
theorem c3_first_choice_surfaced (self : LLMProvider) (prompt system_prompt : String)
    (model : Option String) (status : Nat) (resp : OpenRouterChatCompletionsResponse)
    (h : ¬ (400 ≤ status ∧ status ≤ 599)) :
    (self.generate_response prompt system_prompt model
        (HttpOutcome.response status (some resp))).result =
      Except.ok (match resp.choices with
        | [] => ""
        | c :: _ => c.message.content) := by
  simp only [LLMProvider.generate_response, if_neg h]
  cases hc : resp.choices <;> simp [hc]

/-- C3 witness: a two-candidate response whose first message is "hello"
yields exactly "hello", and an empty-choices response yields "". -/
theorem c3_first_choice_surfaced_witness :
    (provider0.generate_response "p" "s" none
        (HttpOutcome.response 200 (some respHello))).result = Except.ok "hello" ∧
    (provider0.generate_response "p" "s" none
        (HttpOutcome.response 200 (some respEmpty))).result = Except.ok "" :=
  ⟨c3_first_choice_surfaced provider0 "p" "s" none 200 respHello (by decide),
   c3_first_choice_surfaced provider0 "p" "s" none 200 respEmpty (by decide)⟩

/-- C4: for every configuration and input, `create_issue` and
`isolate_host` issue no network request; each fails with the error naming
its missing credential exactly when the relevant token is the empty string,
and returns success otherwise. -/
theorem c4_stub_credential_gate (cfg : PAGIConfig) (summary hostname : String) :
    ((JiraClient.new cfg).create_issue summary).result =
        (if cfg.jira_api_token.isEmpty then
          Except.error "JIRA_API_TOKEN is not set"
         else Except.ok ()) ∧
    ((JiraClient.new cfg).create_issue summary).network = [] ∧
    ((CrowdstrikeClient.new cfg).isolate_host hostname).result =
        (if cfg.crowdstrike_api_token.isEmpty then
          Except.error "CROWDSTRIKE_API_TOKEN is not set"
         else Except.ok ()) ∧
    ((CrowdstrikeClient.new cfg).isolate_host hostname).network = [] := by
  rw [create_issue_eq, isolate_host_eq]
  exact ⟨rfl, rfl, rfl, rfl⟩

/-- C5: the outgoing request's model field is the explicit override when
one is supplied, else the configuration's default model. -/
theorem c5_model_resolution (self : LLMProvider) (prompt system_prompt m : String)
    (outcome : HttpOutcome) :
    (self.generate_response prompt system_prompt (some m) outcome).network.map
        NetworkEffect.bodyModel = [m] ∧
    (self.generate_response prompt system_prompt none outcome).network.map
        NetworkEffect.bodyModel = [self.config.default_model] := by
  constructor <;> rw [generate_response_network_eq] <;> rfl

/-- C6: whenever the mandatory key is present, loading succeeds and each
optional field equals its fixed default when its variable is unset and the
provided value verbatim when it is set. -/
theorem c6_optional_defaults (env : Env) (k : String)
    (hk : env.OPENROUTER_API_KEY = some k) :
    ∃ cfg, PAGIConfig.load env = Except.ok cfg ∧
      cfg.openrouter_api_key = k ∧
      (env.OPENROUTER_DEFAULT_MODEL = none → cfg.default_model = "openai/gpt-4o-mini") ∧
      (∀ v, env.OPENROUTER_DEFAULT_MODEL = some v → cfg.default_model = v) ∧
      (env.JIRA_API_TOKEN = none → cfg.jira_api_token = "") ∧
      (∀ v, env.JIRA_API_TOKEN = some v → cfg.jira_api_token = v) ∧
      (env.JIRA_BASE_URL = none → cfg.jira_base_url = "https://jira.example.com") ∧
      (∀ v, env.JIRA_BASE_URL = some v → cfg.jira_base_url = v) ∧
      (env.CROWDSTRIKE_API_TOKEN = none → cfg.crowdstrike_api_token = "") ∧
      (∀ v, env.CROWDSTRIKE_API_TOKEN = some v → cfg.crowdstrike_api_token = v) ∧
      (env.CROWDSTRIKE_BASE_URL = none → cfg.crowdstrike_base_url = "https://api.crowdstrike.com") ∧
      (∀ v, env.CROWDSTRIKE_BASE_URL = some v → cfg.crowdstrike_base_url = v) := by
  refine ⟨_, by unfold PAGIConfig.load; rw [hk], rfl, ?_, ?_, ?_, ?_, ?_, ?_, ?_, ?_, ?_, ?_⟩ <;>
    first
      | (intro h; simp [h])
      | (intro v h; simp [h])

/-- C6 witness: at the concrete environment holding only the mandatory key,
loading succeeds and the default-model field takes its fixed default. -/
theorem c6_optional_defaults_witness :
    ∃ cfg, PAGIConfig.load envOnlyKey = Except.ok cfg ∧
      cfg.default_model = "openai/gpt-4o-mini" := by
  obtain ⟨cfg, h1, _, h3, _⟩ := c6_optional_defaults envOnlyKey "sk-test" rfl
  exact ⟨cfg, h1, h3 rfl⟩

/-- C7 counterexample: a response carrying the non-success status 300 (not
in the 2xx success class) whose body nevertheless deserializes is returned
as success, because `error_for_status` raises only statuses 400–599. -/
theorem c7_nonsuccess_not_always_error :
    (300 < 200 ∨ 299 < 300) ∧
    (provider0.generate_response "p" "s" none
        (HttpOutcome.response 300 (some respEmpty))).result = Except.ok "" :=
  ⟨Or.inr (by decide), rfl⟩

/-- C7 (amended): transport failure, a response status in the client/server
error range 400–599, and body-deserialization failure each make
`generate_response` return an error of the single `ReqwestError` category,
surfacing no text; statuses outside 400–599 are not themselves errors. -/
theorem c7_error_paths (self : LLMProvider) (prompt system_prompt : String)
    (model : Option String) (status : Nat)
    (parsed : Option OpenRouterChatCompletionsResponse) :
    ((self.generate_response prompt system_prompt model
        HttpOutcome.transportFailure).result = Except.error ReqwestError.transport) ∧
    (400 ≤ status → status ≤ 599 →
      (self.generate_response prompt system_prompt model
          (HttpOutcome.response status parsed)).result =
        Except.error (ReqwestError.status status)) ∧
    (¬ (400 ≤ status ∧ status ≤ 599) →
      (self.generate_response prompt system_prompt model
          (HttpOutcome.response status none)).result = Except.error ReqwestError.decode) := by
  refine ⟨rfl, ?_, ?_⟩
  · intro h1 h2
    simp only [LLMProvider.generate_response, if_pos (And.intro h1 h2)]
  · intro h
    simp only [LLMProvider.generate_response, if_neg h]

/-- C7 witness: the three error paths at concrete inputs. -/
theorem c7_error_paths_witness :
    (provider0.generate_response "p" "s" none
        HttpOutcome.transportFailure).result = Except.error ReqwestError.transport ∧
    (provider0.generate_response "p" "s" none
        (HttpOutcome.response 500 (some respHello))).result =
      Except.error (ReqwestError.status 500) ∧
    (provider0.generate_response "p" "s" none
        (HttpOutcome.response 200 none)).result = Except.error ReqwestError.decode :=
  ⟨(c7_error_paths provider0 "p" "s" none 500 (some respHello)).1,
   (c7_error_paths provider0 "p" "s" none 500 (some respHello)).2.1 (by decide) (by decide),
   (c7_error_paths provider0 "p" "s" none 200 none).2.2 (by decide)⟩

/-- C8: every operation leaves its receiver's configuration — all six
fields — exactly as before the call, whatever the outcome. -/
theorem c8_config_immutable (self : LLMProvider) (jc : JiraClient) (cc : CrowdstrikeClient)
    (prompt system_prompt summary hostname : String) (model : Option String)
    (outcome : HttpOutcome) :
    (self.generate_response prompt system_prompt model outcome).post.config = self.config ∧
    (jc.create_issue summary).post.config = jc.config ∧
    (cc.isolate_host hostname).post.config = cc.config := by
  rw [generate_response_post_eq, create_issue_eq, isolate_host_eq]
  exact ⟨rfl, rfl, rfl⟩

/-- C9: the concrete fixed defaults — default model "openai/gpt-4o-mini",
base URLs "https://jira.example.com" and "https://api.crowdstrike.com",
empty-string tokens. -/
theorem c9_concrete_defaults :
    PAGIConfig.load envOnlyKey =
      Except.ok
        { openrouter_api_key := "sk-test"
          default_model := "openai/gpt-4o-mini"
          jira_api_token := ""
          jira_base_url := "https://jira.example.com"
          crowdstrike_api_token := ""
          crowdstrike_base_url := "https://api.crowdstrike.com" } := rfl

/-- C10: the stub operations never inspect their input argument: over any
two clients whose relevant tokens agree on emptiness and any two inputs,
result (including the exact error message) and network trace coincide. -/
theorem c10_stub_input_independence (jc jc2 : JiraClient) (cc cc2 : CrowdstrikeClient)
    (s1 s2 h1 h2 : String)
    (hj : jc.config.jira_api_token.isEmpty = jc2.config.jira_api_token.isEmpty)
    (hc : cc.config.crowdstrike_api_token.isEmpty = cc2.config.crowdstrike_api_token.isEmpty) :
    (jc.create_issue s1).result = (jc2.create_issue s2).result ∧
    (jc.create_issue s1).network = (jc2.create_issue s2).network ∧
    (cc.isolate_host h1).result = (cc2.isolate_host h2).result ∧
    (cc.isolate_host h1).network = (cc2.isolate_host h2).network := by
  rw [create_issue_eq, create_issue_eq, isolate_host_eq, isolate_host_eq, hj, hc]
  exact ⟨rfl, rfl, rfl, rfl⟩

/-- Configuration with one pair of non-empty integration tokens. -/
def cfgTokensA : PAGIConfig :=
  { cfg0 with jira_api_token := "jira-token-a", crowdstrike_api_token := "cs-token-a" }

/-- Configuration with a different pair of non-empty integration tokens. -/
def cfgTokensB : PAGIConfig :=
  { cfg0 with jira_api_token := "jira-token-bee", crowdstrike_api_token := "cs-token-bee" }

/-- C10 witness: two clients with different non-empty tokens and different
inputs produce identical results and network traces. -/
theorem c10_stub_input_independence_witness :
    ((JiraClient.new cfgTokensA).create_issue "summary one").result =
      ((JiraClient.new cfgTokensB).create_issue "another summary").result ∧
    ((JiraClient.new cfgTokensA).create_issue "summary one").network =
      ((JiraClient.new cfgTokensB).create_issue "another summary").network ∧
    ((CrowdstrikeClient.new cfgTokensA).isolate_host "host-1").result =
      ((CrowdstrikeClient.new cfgTokensB).isolate_host "host-2").result ∧
    ((CrowdstrikeClient.new cfgTokensA).isolate_host "host-1").network =
      ((CrowdstrikeClient.new cfgTokensB).isolate_host "host-2").network :=
  c10_stub_input_independence (JiraClient.new cfgTokensA) (JiraClient.new cfgTokensB)
    (CrowdstrikeClient.new cfgTokensA) (CrowdstrikeClient.new cfgTokensB)
    "summary one" "another summary" "host-1" "host-2" rfl rfl
